import Mathlib

/-!
Shallow embedding of the library reservation engine from
`src/library/models.py`, `src/library/views.py` and `src/library/forms.py`
(Django project `test_gestion_Biblioth-que`), together with proofs of the
specification's claims about it.

Records are modelled as plain structures, the database as lists of records
inside a `LibraryState`, timestamps as natural numbers supplied by the
caller (`datetime.now()` becomes an explicit `now` argument), and the ORM
`UPDATE ... WHERE pk = id` as an update of the first list entry with the
given primary key (primary keys are unique in the database, and the engine
only ever assigns fresh ones).
-/

namespace Library

/-- Record of the `Book` model (`models.py`, class `Book`). -/
structure Book where
  id : Nat
  title : String
  author : String
  year : Nat
deriving DecidableEq

/-- Record of the `Reader` model (`models.py`, class `Reader`). -/
structure Reader where
  id : Nat
  name : String
  email : String
deriving DecidableEq

/-- Record of the `Reservation` model (`models.py`, class `Reservation`):
foreign keys to `Book` and `Reader`, creation timestamp, active flag
(default true), optional cancellation timestamp, free-text notes. -/
structure Reservation where
  id : Nat
  bookId : Nat
  readerId : Nat
  reservation_date : Nat
  is_active : Bool
  cancelled_at : Option Nat
  notes : String
deriving DecidableEq

/-- Committed database state: the three tables plus the next fresh primary
key for reservations. -/
structure LibraryState where
  books : List Book
  readers : List Reader
  reservations : List Reservation
  nextId : Nat
deriving DecidableEq

/-- Predicate matched by `reservations.filter(book=b, is_active=True)`. -/
def matchesBookActive (b : Nat) (r : Reservation) : Bool :=
  r.bookId == b && r.is_active

/-- Predicate matched by `reservations.filter(reader=rd, is_active=True)`. -/
def matchesReaderActive (rd : Nat) (r : Reservation) : Bool :=
  r.readerId == rd && r.is_active

/-- `Book.is_available` (models.py line 49): true iff no reservation
referencing the book is active. -/
def is_available (rs : List Reservation) (b : Nat) : Bool :=
  !(rs.any (matchesBookActive b))

/-- `Book.get_current_reservation` (models.py line 53): the first active
reservation of the book, if any. -/
def get_current_reservation (rs : List Reservation) (b : Nat) : Option Reservation :=
  rs.find? (matchesBookActive b)

/-- `Reader.get_active_reservations` (models.py line 100). -/
def get_active_reservations (rs : List Reservation) (rd : Nat) : List Reservation :=
  rs.filter (matchesReaderActive rd)

/-- Number of active reservations referencing book `b` (the quantity bounded
by invariant I1). -/
def activeCountForBook (rs : List Reservation) (b : Nat) : Nat :=
  (rs.filter (matchesBookActive b)).length

/-- Number of active reservations held by reader `rd` (the quantity bounded
by invariant I2, and the count tested by `QuickReservationForm.clean`). -/
def activeCountForReader (rs : List Reservation) (rd : Nat) : Nat :=
  (rs.filter (matchesReaderActive rd)).length

/-- Point lookup of a book by primary key. -/
def findBook (s : LibraryState) (b : Nat) : Option Book :=
  s.books.find? (fun x => x.id == b)

/-- Point lookup of a reader by primary key. -/
def findReader (s : LibraryState) (rd : Nat) : Option Reader :=
  s.readers.find? (fun x => x.id == rd)

/-- Point lookup of a reservation by primary key. -/
def findRes (rs : List Reservation) (i : Nat) : Option Reservation :=
  rs.find? (fun x => x.id == i)

/-- Name of the reader holding a reservation, for the `BookAlreadyReserved`
message of `Reservation.clean` (models.py line 182). -/
def readerNameOf (s : LibraryState) (rd : Nat) : String :=
  ((findReader s rd).map Reader.name).getD ""

/-- Error kinds raised by the engine: `NotFound` for a missing record,
`ValidationError` on the book (carrying the holding reader's name on the
create path, none on the reactivate path), `ValidationError` on the
reader. -/
inductive LibError where
  | notFound : LibError
  | bookAlreadyReserved : Option String → LibError
  | readerAlreadyReserved : LibError
deriving DecidableEq

/-- Update of the row with primary key `i` by `f`: the ORM `save()` of a
fetched object issues `UPDATE ... WHERE pk = i`, which touches the unique
row carrying that key. -/
def updateById (i : Nat) (f : Reservation → Reservation) :
    List Reservation → List Reservation
  | [] => []
  | r :: rest =>
    if r.id == i then f r :: rest else r :: updateById i f rest

/-- Field update performed by `Reservation.cancel` (models.py lines 198-201). -/
def cancelUpd (now : Nat) (x : Reservation) : Reservation :=
  { x with is_active := false, cancelled_at := some now }

/-- Field update performed by `Reservation.reactivate` (models.py lines 207-210). -/
def reactUpd (x : Reservation) : Reservation :=
  { x with is_active := true, cancelled_at := none }

/-- `CreateReservation(book_id, reader_id, notes)`: the checks of
`Reservation.clean` (models.py lines 166-189) followed by the insert, with
record existence reported as `NotFound`. Book conflict is checked before
reader conflict, exactly as in the source. -/
def createReservation (s : LibraryState) (bookId readerId : Nat)
    (notes : String) (now : Nat) : Except LibError (LibraryState × Reservation) :=
  match findBook s bookId, findReader s readerId with
  | some _, some _ =>
    match get_current_reservation s.reservations bookId with
    | some existing =>
      .error (.bookAlreadyReserved (some (readerNameOf s existing.readerId)))
    | none =>
      if (get_active_reservations s.reservations readerId).isEmpty then
        let res : Reservation :=
          { id := s.nextId, bookId := bookId, readerId := readerId,
            reservation_date := now, is_active := true,
            cancelled_at := none, notes := notes }
        .ok ({ s with reservations := s.reservations ++ [res],
                      nextId := s.nextId + 1 }, res)
      else
        .error .readerAlreadyReserved
  | _, _ => .error .notFound

/-- `CancelReservation(reservation_id)`: `get_object_or_404` then
`Reservation.cancel` (models.py lines 196-203). Active: deactivate, stamp
`cancelled_at`, return true. Inactive: no-op returning false. -/
def cancelReservation (s : LibraryState) (i : Nat) (now : Nat) :
    Except LibError (LibraryState × Bool) :=
  match findRes s.reservations i with
  | none => .error .notFound
  | some r =>
    if r.is_active then
      let rs := updateById i (cancelUpd now) s.reservations
      .ok ({ s with reservations := rs }, true)
    else
      .ok (s, false)

/-- `ReactivateReservation(reservation_id)`: `get_object_or_404` then
`Reservation.reactivate` (models.py lines 205-214). Inactive and book
available: activate, clear `cancelled_at`, return true. Book not
available: raise (the message carries no reader name). Otherwise return
false — note the code reaches this branch only if the reservation is
active yet its book is available. -/
def reactivateReservation (s : LibraryState) (i : Nat) :
    Except LibError (LibraryState × Bool) :=
  match findRes s.reservations i with
  | none => .error .notFound
  | some r =>
    if !r.is_active && is_available s.reservations r.bookId then
      let rs := updateById i reactUpd s.reservations
      .ok ({ s with reservations := rs }, true)
    else if !(is_available s.reservations r.bookId) then
      .error (.bookAlreadyReserved none)
    else
      .ok (s, false)

/-- Outcome of the `quick_reserve` AJAX view: a JSON error message or a
success carrying the new reservation's id. -/
inductive QuickResponse where
  | jsonError : String → QuickResponse
  | success : Nat → QuickResponse
deriving DecidableEq

/-- `quick_reserve` view (views.py lines 358-390): look up book and reader
(404 on missing), reject if the book is unavailable, reject if the reader
has any active reservation, otherwise create the reservation (whose model
`clean` then passes, both pre-checks having succeeded). -/
def quick_reserve (s : LibraryState) (bookId readerId : Nat) (now : Nat) :
    QuickResponse × LibraryState :=
  match findBook s bookId, findReader s readerId with
  | some _, some _ =>
    if !(is_available s.reservations bookId) then
      (.jsonError "Ce livre est déjà réservé.", s)
    else if !(get_active_reservations s.reservations readerId).isEmpty then
      (.jsonError "Ce lecteur a déjà une réservation en cours.", s)
    else
      match createReservation s bookId readerId "" now with
      | .ok (s2, res) => (.success res.id, s2)
      | .error _ => (.jsonError "", s)
  | _, _ => (.jsonError "404", s)

/-- `QuickReservationForm.clean` (forms.py lines 375-392): accepts iff the
book is still available and the reader holds fewer than 5 active
reservations (the configurable limit). -/
def quickFormClean (s : LibraryState) (bookId readerId : Nat) : Bool :=
  is_available s.reservations bookId &&
    activeCountForReader s.reservations readerId < 5

/-- Python truthiness, whitespace and lower-casing used by
`Reader.save`: characters stripped by `str.strip()`. -/
def isPySpace (c : Char) : Bool :=
  c == ' ' || c == '\t' || c == '\n' || c == '\x0d' || c == '\x0b' || c == '\x0c'

/-- Python `str.strip()`: drop leading and trailing whitespace. -/
def pyStrip (t : String) : String :=
  String.mk (((t.data.dropWhile isPySpace).reverse.dropWhile isPySpace).reverse)

/-- Python `str.lower()` on the ASCII range (the model's alphabet). -/
def pyLower (t : String) : String :=
  String.mk (t.data.map Char.toLower)

/-- `Reader.save` (models.py lines 94-98): normalize a truthy (non-empty)
email with `strip().lower()` before storing. -/
def readerSave (rd : Reader) : Reader :=
  if rd.email ≠ "" then { rd with email := pyLower (pyStrip rd.email) } else rd

/-- Declared storage constraints of the `Reservation` table
(`Reservation.Meta.constraints`, models.py lines 149-156): the single
partial-uniqueness constraint `unique_active_reservation_per_book` — no
pair of distinct rows is active on the same book. No constraint mentions
the reader. -/
def declaredConstraintsHold : List Reservation → Bool
  | [] => true
  | r :: rest =>
    !(r.is_active && rest.any (fun x => x.is_active && x.bookId == r.bookId)) &&
      declaredConstraintsHold rest

/-- States reachable through the engine: any state whose reservation table
is empty, closed under adding books and readers (external callers) and
under the three engine operations (errors abort the transaction and leave
the state unchanged; `ok` results commit). -/
inductive Reachable : LibraryState → Prop where
  | init (books : List Book) (readers : List Reader) (nextId : Nat) :
      Reachable ⟨books, readers, [], nextId⟩
  | addBook (s : LibraryState) (b : Book) : Reachable s →
      Reachable { s with books := s.books ++ [b] }
  | addReader (s : LibraryState) (rd : Reader) : Reachable s →
      Reachable { s with readers := s.readers ++ [rd] }
  | create (s s2 : LibraryState) (bookId readerId now : Nat) (notes : String)
      (res : Reservation) : Reachable s →
      createReservation s bookId readerId notes now = .ok (s2, res) →
      Reachable s2
  | cancel (s s2 : LibraryState) (i now : Nat) (b : Bool) : Reachable s →
      cancelReservation s i now = .ok (s2, b) → Reachable s2
  | reactivate (s s2 : LibraryState) (i : Nat) (b : Bool) : Reachable s →
      reactivateReservation s i = .ok (s2, b) → Reachable s2

/-- Example catalog data used to instantiate the theorems below. -/
def exBook1 : Book := ⟨1, "Les Misérables", "Victor Hugo", 1862⟩

/-- Second example book. -/
def exBook2 : Book := ⟨2, "Candide", "Voltaire", 1759⟩

/-- Example reader Alice. -/
def exReader1 : Reader := ⟨10, "Alice", "alice@example.com"⟩

/-- Example reader Bob. -/
def exReader2 : Reader := ⟨20, "Bob", "bob@example.com"⟩

/-- Committed state with two books, two readers and no reservations. -/
def exState0 : LibraryState := ⟨[exBook1, exBook2], [exReader1, exReader2], [], 100⟩

/-- Reservation created by `createReservation exState0 1 10 "" 5`. -/
def exRes : Reservation := ⟨100, 1, 10, 5, true, none, ""⟩

/-- State after Alice reserved book 1. -/
def exState1 : LibraryState := ⟨[exBook1, exBook2], [exReader1, exReader2], [exRes], 101⟩

/-- The reservation of `exState1` after cancellation at time 9. -/
def exResCancelled : Reservation := ⟨100, 1, 10, 5, false, some 9, ""⟩

/-- State after Alice's reservation of book 1 was cancelled. -/
def exState2 : LibraryState := ⟨[exBook1, exBook2], [exReader1, exReader2], [exResCancelled], 101⟩

/-- Bob's later active reservation of book 1. -/
def exRes2 : Reservation := ⟨101, 1, 20, 12, true, none, ""⟩

/-- State where Alice's reservation of book 1 is cancelled and Bob holds an
active reservation of the same book. -/
def exState3 : LibraryState :=
  ⟨[exBook1, exBook2], [exReader1, exReader2], [exResCancelled, exRes2], 102⟩

/-- Two active reservation rows held by the same reader on different books:
the row set that distinguishes the declared storage constraints from a
per-reader constraint. -/
def exTwoReaderRows : List Reservation :=
  [⟨1, 1, 10, 0, true, none, ""⟩, ⟨2, 2, 10, 0, true, none, ""⟩]

/-! ### Supporting lemmas -/

theorem find_append_none {α : Type} (p : α → Bool) (l1 l2 : List α)
    (h : ∀ x ∈ l1, p x = false) :
    List.find? p (l1 ++ l2) = List.find? p l2 := by
  induction l1 with
  | nil => rfl
  | cons a l ih =>
    have ha : p a = false := h a (by simp)
    rw [List.cons_append, List.find?_cons, ha]
    exact ih (fun x hx => h x (by simp [hx]))

theorem updateById_decomp (i : Nat) (f : Reservation → Reservation)
    (rs : List Reservation) (t : Reservation) (h : findRes rs i = some t) :
    ∃ l1 l2, rs = l1 ++ t :: l2 ∧ (∀ x ∈ l1, (x.id == i) = false) ∧
      updateById i f rs = l1 ++ f t :: l2 := by
  induction rs with
  | nil => simp [findRes] at h
  | cons r rest ih =>
    by_cases hr : (r.id == i) = true
    · have h2 : r = t := by simpa [findRes, List.find?_cons, hr] using h
      subst h2
      exact ⟨[], rest, rfl, by simp, by simp [updateById, hr]⟩
    · have h2 : findRes rest i = some t := by
        simpa [findRes, List.find?_cons, Bool.eq_false_iff.mpr hr] using h
      obtain ⟨l1, l2, hsplit, hl1, hupd⟩ := ih h2
      refine ⟨r :: l1, l2, by simp [hsplit], ?_, ?_⟩
      · intro x hx
        rcases List.mem_cons.mp hx with rfl | hx2
        · exact Bool.eq_false_iff.mpr hr
        · exact hl1 x hx2
      · simp [updateById, hr, hupd]

theorem findRes_updateById (i : Nat) (f : Reservation → Reservation)
    (rs : List Reservation) (t : Reservation) (h : findRes rs i = some t)
    (hid : (f t).id = t.id) :
    findRes (updateById i f rs) i = some (f t) := by
  have h' : List.find? (fun x => x.id == i) rs = some t := h
  have hti : (t.id == i) = true := by simpa using List.find?_some h'
  obtain ⟨l1, l2, _, hl1, hupd⟩ := updateById_decomp i f rs t h
  show List.find? (fun x => x.id == i) (updateById i f rs) = some (f t)
  rw [hupd, find_append_none _ _ _ hl1, List.find?_cons]
  simp [hid, hti]

theorem activeCountForBook_countP (rs : List Reservation) (b : Nat) :
    activeCountForBook rs b = rs.countP (matchesBookActive b) :=
  (List.countP_eq_length_filter _ _).symm

theorem is_available_iff_count (rs : List Reservation) (b : Nat) :
    is_available rs b = true ↔ activeCountForBook rs b = 0 := by
  rw [activeCountForBook_countP]
  simp [is_available, List.countP_eq_zero, List.any_eq_true]

theorem matchesBookActive_cancelUpd (b now : Nat) (x : Reservation) :
    matchesBookActive b (cancelUpd now x) = false := by
  simp [matchesBookActive, cancelUpd]

theorem count_cancel_le (i now : Nat) (rs : List Reservation) (t : Reservation)
    (h : findRes rs i = some t) (b : Nat) :
    activeCountForBook (updateById i (cancelUpd now) rs) b ≤
      activeCountForBook rs b := by
  obtain ⟨l1, l2, hsplit, -, hupd⟩ := updateById_decomp i (cancelUpd now) rs t h
  subst hsplit
  rw [hupd, activeCountForBook_countP, activeCountForBook_countP,
    List.countP_append, List.countP_append, List.countP_cons, List.countP_cons,
    matchesBookActive_cancelUpd]
  cases hm : matchesBookActive b t <;> simp

theorem count_cancel_avail (i now : Nat) (rs : List Reservation) (t : Reservation)
    (h : findRes rs i = some t) (ht : t.is_active = true)
    (hone : activeCountForBook rs t.bookId ≤ 1) :
    is_available (updateById i (cancelUpd now) rs) t.bookId = true := by
  obtain ⟨l1, l2, hsplit, -, hupd⟩ := updateById_decomp i (cancelUpd now) rs t h
  subst hsplit
  rw [hupd, is_available_iff_count]
  have hm : matchesBookActive t.bookId t = true := by
    simp [matchesBookActive, ht]
  rw [activeCountForBook_countP] at hone ⊢
  rw [List.countP_append, List.countP_cons_of_pos _ _ hm] at hone
  rw [List.countP_append,
    List.countP_cons_of_neg _ _ (by simp [matchesBookActive_cancelUpd])]
  omega

theorem count_react (i : Nat) (rs : List Reservation) (t : Reservation)
    (h : findRes rs i = some t) (ht : t.is_active = false)
    (hav : is_available rs t.bookId = true) (b : Nat)
    (hone : activeCountForBook rs b ≤ 1) :
    activeCountForBook (updateById i reactUpd rs) b ≤ 1 := by
  have h0 : activeCountForBook rs t.bookId = 0 :=
    (is_available_iff_count rs t.bookId).mp hav
  obtain ⟨l1, l2, hsplit, -, hupd⟩ := updateById_decomp i reactUpd rs t h
  subst hsplit
  rw [hupd]
  by_cases hb : t.bookId = b
  · subst hb
    have hmt : matchesBookActive t.bookId (reactUpd t) = true := by
      simp [matchesBookActive, reactUpd]
    have hmtf : matchesBookActive t.bookId t = false := by
      simp [matchesBookActive, ht]
    rw [activeCountForBook_countP, List.countP_append,
      List.countP_cons_of_neg _ _ (by simp [hmtf])] at h0
    rw [activeCountForBook_countP, List.countP_append,
      List.countP_cons_of_pos _ _ hmt]
    omega
  · have hm1 : matchesBookActive b (reactUpd t) = false := by
      simp [matchesBookActive, reactUpd, hb]
    have hm2 : matchesBookActive b t = false := by
      simp [matchesBookActive, ht]
    rw [activeCountForBook_countP, List.countP_append,
      List.countP_cons_of_neg _ _ (by simp [hm2])] at hone
    rw [activeCountForBook_countP, List.countP_append,
      List.countP_cons_of_neg _ _ (by simp [hm1])]
    omega

theorem count_create (rs : List Reservation) (res : Reservation) (b : Nat)
    (hact : res.is_active = true)
    (hcur : get_current_reservation rs res.bookId = none)
    (hone : activeCountForBook rs b ≤ 1) :
    activeCountForBook (rs ++ [res]) b ≤ 1 := by
  have hcur' : List.find? (matchesBookActive res.bookId) rs = none := hcur
  have hnone : ∀ x ∈ rs, ¬ (matchesBookActive res.bookId x = true) :=
    List.find?_eq_none.mp hcur'
  by_cases hb : res.bookId = b
  · subst hb
    have h0 : rs.countP (matchesBookActive res.bookId) = 0 :=
      List.countP_eq_zero.mpr hnone
    have hms : matchesBookActive res.bookId res = true := by
      simp [matchesBookActive, hact]
    rw [activeCountForBook_countP, List.countP_append, h0]
    simp [List.countP_cons, hms]
  · have hms : matchesBookActive b res = false := by
      simp [matchesBookActive, hact, hb]
    rw [activeCountForBook_countP] at hone ⊢
    rw [List.countP_append]
    simp [List.countP_cons, hms]
    omega

theorem createReservation_ok (s s2 : LibraryState) (bookId readerId now : Nat)
    (notes : String) (res : Reservation)
    (h : createReservation s bookId readerId notes now = .ok (s2, res)) :
    get_current_reservation s.reservations bookId = none ∧
    (get_active_reservations s.reservations readerId).isEmpty = true ∧
    res = ⟨s.nextId, bookId, readerId, now, true, none, notes⟩ ∧
    s2 = { s with reservations := s.reservations ++ [res], nextId := s.nextId + 1 } := by
  cases hfb : findBook s bookId with
  | none => simp [createReservation, hfb] at h
  | some bk =>
    cases hfr : findReader s readerId with
    | none => simp [createReservation, hfb, hfr] at h
    | some rd =>
      cases hcur : get_current_reservation s.reservations bookId with
      | some ex => simp [createReservation, hfb, hfr, hcur] at h
      | none =>
        by_cases hemp : (get_active_reservations s.reservations readerId).isEmpty = true
        · simp [createReservation, hfb, hfr, hcur, hemp] at h
          obtain ⟨h1, h2⟩ := h
          subst h1
          subst h2
          exact ⟨rfl, hemp, rfl, rfl⟩
        · simp [createReservation, hfb, hfr, hcur,
            Bool.eq_false_iff.mpr hemp] at h

theorem cancelReservation_ok (s s2 : LibraryState) (i now : Nat) (bl : Bool)
    (h : cancelReservation s i now = .ok (s2, bl)) :
    ∃ t, findRes s.reservations i = some t ∧
      ((t.is_active = true ∧ bl = true ∧
          s2 = { s with reservations := updateById i (cancelUpd now) s.reservations }) ∨
        (t.is_active = false ∧ bl = false ∧ s2 = s)) := by
  cases hf : findRes s.reservations i with
  | none => simp [cancelReservation, hf] at h
  | some t =>
    refine ⟨t, rfl, ?_⟩
    by_cases ht : t.is_active = true
    · left
      simp [cancelReservation, hf, ht] at h
      obtain ⟨h1, h2⟩ := h
      subst h1
      subst h2
      exact ⟨ht, rfl, rfl⟩
    · right
      simp [cancelReservation, hf, Bool.eq_false_iff.mpr ht] at h
      obtain ⟨h1, h2⟩ := h
      subst h1
      subst h2
      exact ⟨Bool.eq_false_iff.mpr ht, rfl, rfl⟩

theorem reactivateReservation_ok (s s2 : LibraryState) (i : Nat) (bl : Bool)
    (h : reactivateReservation s i = .ok (s2, bl)) :
    ∃ t, findRes s.reservations i = some t ∧
      ((t.is_active = false ∧ is_available s.reservations t.bookId = true ∧
          bl = true ∧
          s2 = { s with reservations := updateById i reactUpd s.reservations }) ∨
        (s2 = s ∧ bl = false)) := by
  cases hf : findRes s.reservations i with
  | none => simp [reactivateReservation, hf] at h
  | some t =>
    refine ⟨t, rfl, ?_⟩
    by_cases hact : t.is_active = true
    · by_cases hav : is_available s.reservations t.bookId = true
      · right
        simp [reactivateReservation, hf, hact, hav] at h
        obtain ⟨h1, h2⟩ := h
        subst h1
        subst h2
        exact ⟨rfl, rfl⟩
      · simp [reactivateReservation, hf, hact,
          Bool.eq_false_iff.mpr hav] at h
    · have hact' : t.is_active = false := Bool.eq_false_iff.mpr hact
      by_cases hav : is_available s.reservations t.bookId = true
      · left
        simp [reactivateReservation, hf, hact', hav] at h
        obtain ⟨h1, h2⟩ := h
        subst h1
        subst h2
        exact ⟨hact', hav, rfl, rfl⟩
      · simp [reactivateReservation, hf, hact',
          Bool.eq_false_iff.mpr hav] at h

/-- C1: at every committed state reachable by engine operations, each book
has at most one active reservation (invariant I1). -/
theorem claim_C1_single_active_per_book (s : LibraryState) (h : Reachable s)
    (b : Nat) : activeCountForBook s.reservations b ≤ 1 := by
  induction h with
  | init books readers nextId => simp [activeCountForBook]
  | addBook s bk _ ih => simpa using ih
  | addReader s rd _ ih => simpa using ih
  | create s s2 bookId readerId now notes res _ heq ih =>
    obtain ⟨hcur, _, hres, hs2⟩ := createReservation_ok _ _ _ _ _ _ _ heq
    subst hs2
    have hb : res.bookId = bookId := by rw [hres]
    have ha : res.is_active = true := by rw [hres]
    exact count_create _ _ _ ha (by rw [hb]; exact hcur) ih
  | cancel s s2 i now bl _ heq ih =>
    obtain ⟨t, hf, hcase⟩ := cancelReservation_ok _ _ _ _ _ heq
    rcases hcase with ⟨_, _, hs2⟩ | ⟨_, _, hs2⟩
    · subst hs2
      exact le_trans (count_cancel_le i now _ t hf b) ih
    · subst hs2
      exact ih
  | reactivate s s2 i bl _ heq ih =>
    obtain ⟨t, hf, hcase⟩ := reactivateReservation_ok _ _ _ _ heq
    rcases hcase with ⟨ht, hav, _, hs2⟩ | ⟨hs2, _⟩
    · subst hs2
      exact count_react i _ t hf ht hav b ih
    · subst hs2
      exact ih

/-- Witness for C1 at a concretely reachable state with one reservation. -/
theorem claim_C1_witness : activeCountForBook exState1.reservations 1 ≤ 1 := by
  have h0 : Reachable exState0 := Reachable.init _ _ _
  have h1 : Reachable exState1 :=
    Reachable.create exState0 exState1 1 10 5 "" exRes h0 (by rfl)
  exact claim_C1_single_active_per_book exState1 h1 1

/-- C2: `CreateReservation` checks its preconditions in the fixed order —
missing book or reader gives `NotFound`; otherwise an active reservation on
the book gives `BookAlreadyReserved` carrying the holding reader's name
(regardless of any reader conflict, so a simultaneous book conflict wins);
otherwise a reader with an active reservation gives
`ReaderAlreadyReserved`. -/
theorem claim_C2_create_check_order (s : LibraryState) (bookId readerId now : Nat)
    (notes : String) :
    ((findBook s bookId = none ∨ findReader s readerId = none) →
      createReservation s bookId readerId notes now = .error .notFound) ∧
    (∀ bk rd ex, findBook s bookId = some bk → findReader s readerId = some rd →
      get_current_reservation s.reservations bookId = some ex →
      createReservation s bookId readerId notes now =
        .error (.bookAlreadyReserved (some (readerNameOf s ex.readerId)))) ∧
    (∀ bk rd, findBook s bookId = some bk → findReader s readerId = some rd →
      get_current_reservation s.reservations bookId = none →
      (get_active_reservations s.reservations readerId).isEmpty = false →
      createReservation s bookId readerId notes now =
        .error .readerAlreadyReserved) := by
  refine ⟨?_, ?_, ?_⟩
  · rintro (hb | hr)
    · cases hfr : findReader s readerId <;> simp [createReservation, hb, hfr]
    · cases hfb : findBook s bookId <;> simp [createReservation, hfb, hr]
  · intro bk rd ex hb hr hcur
    simp [createReservation, hb, hr, hcur]
  · intro bk rd hb hr hcur hne
    simp [createReservation, hb, hr, hcur, hne]

/-- Witness for C2: the three error outcomes on concrete states. The last
conjunct has both a book conflict and a reader conflict (book 1 is held by
Alice, who also is the requesting reader), and the book error wins. -/
theorem claim_C2_witness :
    createReservation exState1 3 10 "" 6 = .error .notFound ∧
    createReservation exState1 1 20 "" 6 =
      .error (.bookAlreadyReserved (some "Alice")) ∧
    createReservation exState1 2 10 "" 6 = .error .readerAlreadyReserved ∧
    createReservation exState1 1 10 "" 6 =
      .error (.bookAlreadyReserved (some "Alice")) :=
  ⟨(claim_C2_create_check_order exState1 3 10 6 "").1 (Or.inl rfl),
   (claim_C2_create_check_order exState1 1 20 6 "").2.1 exBook1 exReader2 exRes
     rfl rfl rfl,
   (claim_C2_create_check_order exState1 2 10 6 "").2.2 exBook2 exReader1
     rfl rfl rfl rfl,
   (claim_C2_create_check_order exState1 1 10 6 "").2.1 exBook1 exReader1 exRes
     rfl rfl rfl⟩

/-- C3 (code bug): on an already-active committed reservation,
`Reservation.reactivate` does not return false as a no-op: the reservation
itself makes its book unavailable, so the code raises the
`BookAlreadyReserved` validation error; the `return False` line is
unreachable for committed active reservations. Evaluated at the failing
input: state `exState1`, reservation 100 active. -/
theorem claim_C3_reactivate_active_raises :
    (findRes exState1.reservations 100).map Reservation.is_active = some true ∧
    reactivateReservation exState1 100 = .error (.bookAlreadyReserved none) :=
  ⟨rfl, rfl⟩

/-- C4: `CancelReservation` gives `NotFound` for a missing id, is a
false-returning no-op on an inactive reservation, and on an active
reservation clears `is_active`, stamps `cancelled_at` with the current
time, and returns true. -/
theorem claim_C4_cancel_behavior (s : LibraryState) (i now : Nat) :
    (findRes s.reservations i = none →
      cancelReservation s i now = .error .notFound) ∧
    (∀ t, findRes s.reservations i = some t → t.is_active = false →
      cancelReservation s i now = .ok (s, false)) ∧
    (∀ t, findRes s.reservations i = some t → t.is_active = true →
      cancelReservation s i now =
        .ok ({ s with
          reservations := updateById i (cancelUpd now) s.reservations }, true) ∧
      findRes (updateById i (cancelUpd now) s.reservations) i =
        some { t with is_active := false, cancelled_at := some now }) := by
  refine ⟨?_, ?_, ?_⟩
  · intro hf
    simp [cancelReservation, hf]
  · intro t hf ht
    simp [cancelReservation, hf, ht]
  · intro t hf ht
    exact ⟨by simp [cancelReservation, hf, ht],
      findRes_updateById i (cancelUpd now) s.reservations t hf rfl⟩

/-- Witness for C4: missing id, inactive no-op, and active cancellation on
concrete states. -/
theorem claim_C4_witness :
    cancelReservation exState0 100 9 = .error .notFound ∧
    cancelReservation exState2 100 11 = .ok (exState2, false) ∧
    cancelReservation exState1 100 9 = .ok (exState2, true) ∧
    findRes exState2.reservations 100 = some exResCancelled :=
  ⟨(claim_C4_cancel_behavior exState0 100 9).1 rfl,
   (claim_C4_cancel_behavior exState2 100 11).2.1 exResCancelled rfl rfl,
   ((claim_C4_cancel_behavior exState1 100 9).2.2 exRes rfl rfl).1,
   ((claim_C4_cancel_behavior exState1 100 9).2.2 exRes rfl rfl).2⟩

/-- C5: cancelling an active reservation and then reactivating it, with the
book otherwise untouched (its active count obeying I1), succeeds and
restores `is_active = true` and `cancelled_at = null`. -/
theorem claim_C5_cancel_reactivate_roundtrip (s : LibraryState) (i now : Nat)
    (t : Reservation) (hf : findRes s.reservations i = some t)
    (ht : t.is_active = true)
    (hone : activeCountForBook s.reservations t.bookId ≤ 1) :
    ∃ s2, cancelReservation s i now = .ok (s2, true) ∧
      reactivateReservation s2 i =
        .ok ({ s2 with
          reservations := updateById i reactUpd s2.reservations }, true) ∧
      findRes (updateById i reactUpd s2.reservations) i =
        some { t with is_active := true, cancelled_at := none } := by
  refine ⟨{ s with
    reservations := updateById i (cancelUpd now) s.reservations }, ?_, ?_, ?_⟩
  · simp [cancelReservation, hf, ht]
  · have hf2 : findRes (updateById i (cancelUpd now) s.reservations) i =
        some (cancelUpd now t) :=
      findRes_updateById i (cancelUpd now) s.reservations t hf rfl
    have hav : is_available (updateById i (cancelUpd now) s.reservations)
        t.bookId = true :=
      count_cancel_avail i now s.reservations t hf ht hone
    simp [reactivateReservation, hf2, cancelUpd, hav]
  · have hf2 : findRes (updateById i (cancelUpd now) s.reservations) i =
        some (cancelUpd now t) :=
      findRes_updateById i (cancelUpd now) s.reservations t hf rfl
    exact findRes_updateById i reactUpd _ (cancelUpd now t) hf2 rfl

/-- Witness for C5: the round trip on the concrete state `exState1`. -/
theorem claim_C5_witness :
    ∃ s2, cancelReservation exState1 100 9 = .ok (s2, true) ∧
      reactivateReservation s2 100 =
        .ok ({ s2 with
          reservations := updateById 100 reactUpd s2.reservations }, true) ∧
      findRes (updateById 100 reactUpd s2.reservations) 100 = some exRes :=
  claim_C5_cancel_reactivate_roundtrip exState1 100 9 exRes rfl rfl (by decide)

/-- C6: reactivating an inactive reservation fails with the raised
`BookAlreadyReserved` error when the book is unavailable (held by a
different, active reservation), and otherwise succeeds, setting
`is_active = true` and clearing `cancelled_at`. -/
theorem claim_C6_reactivate_guard (s : LibraryState) (i : Nat) (t : Reservation)
    (hf : findRes s.reservations i = some t) (ht : t.is_active = false) :
    (is_available s.reservations t.bookId = false →
      reactivateReservation s i = .error (.bookAlreadyReserved none)) ∧
    (is_available s.reservations t.bookId = true →
      reactivateReservation s i =
        .ok ({ s with
          reservations := updateById i reactUpd s.reservations }, true) ∧
      findRes (updateById i reactUpd s.reservations) i =
        some { t with is_active := true, cancelled_at := none }) := by
  constructor
  · intro hav
    simp [reactivateReservation, hf, ht, hav]
  · intro hav
    exact ⟨by simp [reactivateReservation, hf, ht, hav],
      findRes_updateById i reactUpd s.reservations t hf rfl⟩

/-- Witness for C6: in `exState3` reservation 100 is inactive while Bob
holds the active reservation 101 on the same book, so reactivation raises;
in `exState2` the book is free and reactivation restores the row. -/
theorem claim_C6_witness :
    reactivateReservation exState3 100 = .error (.bookAlreadyReserved none) ∧
    (reactivateReservation exState2 100 =
        .ok ({ exState2 with
          reservations := updateById 100 reactUpd exState2.reservations }, true) ∧
      findRes (updateById 100 reactUpd exState2.reservations) 100 =
        some exRes) :=
  ⟨(claim_C6_reactivate_guard exState3 100 exResCancelled rfl rfl).1 rfl,
   (claim_C6_reactivate_guard exState2 100 exResCancelled rfl rfl).2 rfl⟩

theorem updateById_length (i : Nat) (f : Reservation → Reservation)
    (rs : List Reservation) : (updateById i f rs).length = rs.length := by
  induction rs with
  | nil => rfl
  | cons r rest ih =>
    by_cases hr : (r.id == i) = true
    · simp [updateById, hr]
    · simp [updateById, hr, ih]

theorem updateById_getElem? (i : Nat) (f : Reservation → Reservation)
    (rs : List Reservation) (j : Nat) :
    (updateById i f rs)[j]? = rs[j]? ∨
      (∃ x, rs[j]? = some x ∧ x.id = i ∧
        (updateById i f rs)[j]? = some (f x)) := by
  induction rs generalizing j with
  | nil => left; rfl
  | cons r rest ih =>
    by_cases hr : (r.id == i) = true
    · cases j with
      | zero =>
        right
        exact ⟨r, by simp, by simpa using hr, by simp [updateById, hr]⟩
      | succ n =>
        left
        simp [updateById, hr]
    · cases j with
      | zero =>
        left
        simp [updateById, hr]
      | succ n =>
        rcases ih n with hl | ⟨x, hx, hxi, hup⟩
        · left
          simpa [updateById, hr] using hl
        · right
          exact ⟨x, by simpa using hx, hxi, by simpa [updateById, hr] using hup⟩

theorem frame_updateById (rs : List Reservation) (i : Nat)
    (f : Reservation → Reservation)
    (hid : ∀ x, (f x).id = x.id) (hbk : ∀ x, (f x).bookId = x.bookId)
    (hrd : ∀ x, (f x).readerId = x.readerId)
    (hdt : ∀ x, (f x).reservation_date = x.reservation_date)
    (hnt : ∀ x, (f x).notes = x.notes) (j : Nat) :
    ((updateById i f rs)[j]?.map Reservation.id = rs[j]?.map Reservation.id) ∧
    ((updateById i f rs)[j]?.map Reservation.bookId =
      rs[j]?.map Reservation.bookId) ∧
    ((updateById i f rs)[j]?.map Reservation.readerId =
      rs[j]?.map Reservation.readerId) ∧
    ((updateById i f rs)[j]?.map Reservation.reservation_date =
      rs[j]?.map Reservation.reservation_date) ∧
    ((updateById i f rs)[j]?.map Reservation.notes =
      rs[j]?.map Reservation.notes) ∧
    (∀ x, rs[j]? = some x → x.id ≠ i → (updateById i f rs)[j]? = some x) := by
  rcases updateById_getElem? i f rs j with hl | ⟨x, hx, hxi, hup⟩
  · rw [hl]
    exact ⟨rfl, rfl, rfl, rfl, rfl, fun x hx _ => hx⟩
  · rw [hup, hx]
    refine ⟨by simp [hid], by simp [hbk], by simp [hrd], by simp [hdt],
      by simp [hnt], ?_⟩
    intro y hy hni
    obtain rfl : x = y := by injection hy
    exact absurd hxi hni

/-- C10: `CancelReservation` and `ReactivateReservation` keep the book,
reader and `nextId` tables untouched, keep the reservation table the same
length with every row keeping its `id`, `book`, `reader`,
`reservation_date` and `notes`, and leave every reservation other than the
targeted id entirely unchanged. -/
theorem claim_C10_frame (s s2 : LibraryState) (i now : Nat) (bl : Bool)
    (h : cancelReservation s i now = .ok (s2, bl) ∨
      reactivateReservation s i = .ok (s2, bl)) :
    s2.books = s.books ∧ s2.readers = s.readers ∧ s2.nextId = s.nextId ∧
    s2.reservations.length = s.reservations.length ∧
    ∀ j : Nat, (s2.reservations[j]?.map Reservation.id =
        s.reservations[j]?.map Reservation.id) ∧
      (s2.reservations[j]?.map Reservation.bookId =
        s.reservations[j]?.map Reservation.bookId) ∧
      (s2.reservations[j]?.map Reservation.readerId =
        s.reservations[j]?.map Reservation.readerId) ∧
      (s2.reservations[j]?.map Reservation.reservation_date =
        s.reservations[j]?.map Reservation.reservation_date) ∧
      (s2.reservations[j]?.map Reservation.notes =
        s.reservations[j]?.map Reservation.notes) ∧
      (∀ x, s.reservations[j]? = some x → x.id ≠ i →
        s2.reservations[j]? = some x) := by
  have frameSame : ∀ j : Nat,
      (s.reservations[j]?.map Reservation.id =
        s.reservations[j]?.map Reservation.id) ∧
      (s.reservations[j]?.map Reservation.bookId =
        s.reservations[j]?.map Reservation.bookId) ∧
      (s.reservations[j]?.map Reservation.readerId =
        s.reservations[j]?.map Reservation.readerId) ∧
      (s.reservations[j]?.map Reservation.reservation_date =
        s.reservations[j]?.map Reservation.reservation_date) ∧
      (s.reservations[j]?.map Reservation.notes =
        s.reservations[j]?.map Reservation.notes) ∧
      (∀ x, s.reservations[j]? = some x → x.id ≠ i →
        s.reservations[j]? = some x) :=
    fun j => ⟨rfl, rfl, rfl, rfl, rfl, fun x hx _ => hx⟩
  rcases h with hc | hr
  · obtain ⟨t, hf, hcase⟩ := cancelReservation_ok _ _ _ _ _ hc
    rcases hcase with ⟨_, _, hs2⟩ | ⟨_, _, hs2⟩
    · subst hs2
      exact ⟨rfl, rfl, rfl, updateById_length i (cancelUpd now) s.reservations,
        fun j => frame_updateById s.reservations i (cancelUpd now)
          (fun x => rfl) (fun x => rfl) (fun x => rfl) (fun x => rfl)
          (fun x => rfl) j⟩
    · subst hs2
      exact ⟨rfl, rfl, rfl, rfl, frameSame⟩
  · obtain ⟨t, hf, hcase⟩ := reactivateReservation_ok _ _ _ _ hr
    rcases hcase with ⟨_, _, _, hs2⟩ | ⟨hs2, _⟩
    · subst hs2
      exact ⟨rfl, rfl, rfl, updateById_length i reactUpd s.reservations,
        fun j => frame_updateById s.reservations i reactUpd
          (fun x => rfl) (fun x => rfl) (fun x => rfl) (fun x => rfl)
          (fun x => rfl) j⟩
    · subst hs2
      exact ⟨rfl, rfl, rfl, rfl, frameSame⟩

/-- Witness for C10: the frame conditions instantiated on the concrete
cancellation taking `exState1` to `exState2`. -/
theorem claim_C10_witness :
    exState2.books = exState1.books ∧ exState2.readers = exState1.readers ∧
    exState2.nextId = exState1.nextId ∧
    exState2.reservations.length = exState1.reservations.length :=
  ⟨(claim_C10_frame exState1 exState2 100 9 true (Or.inl rfl)).1,
   (claim_C10_frame exState1 exState2 100 9 true (Or.inl rfl)).2.1,
   (claim_C10_frame exState1 exState2 100 9 true (Or.inl rfl)).2.2.1,
   (claim_C10_frame exState1 exState2 100 9 true (Or.inl rfl)).2.2.2.1⟩

/-- C9: `Reader.save` stores the email stripped of surrounding whitespace
and lower-cased; at the spec's example input the stored value is
`mixedcase@email.com`. -/
theorem claim_C9_reader_email_normalized (rd : Reader) :
    (readerSave rd).email = pyLower (pyStrip rd.email) ∧
    (readerSave ⟨0, "Reader", "  MixedCase@Email.COM "⟩).email =
      "mixedcase@email.com" := by
  constructor
  · by_cases he : rd.email = ""
    · simp [readerSave, he]
      rfl
    · simp [readerSave, he]
  · rfl

/-- C7 as stated is false: in `exState1` reader 10 holds exactly one
active reservation and book 2 is available, yet the quick-reservation view
rejects the request instead of accepting it. -/
theorem claim_C7_counterexample :
    activeCountForReader exState1.reservations 10 = 1 ∧
    is_available exState1.reservations 2 = true ∧
    (quick_reserve exState1 2 10 7).1 =
      .jsonError "Ce lecteur a déjà une réservation en cours." :=
  ⟨rfl, rfl, rfl⟩

/-- C7 (amended): only `QuickReservationForm.clean` uses the ceiling of 5 —
it accepts any reader below 5 active reservations when the book is
available — but the `quick_reserve` view itself rejects every reader
holding at least one active reservation, and succeeds exactly on readers
with zero. -/
theorem claim_C7_quick_reserve_limits (s : LibraryState)
    (bookId readerId now : Nat) (bk : Book) (rd : Reader)
    (hb : findBook s bookId = some bk) (hr : findReader s readerId = some rd)
    (hav : is_available s.reservations bookId = true) :
    (activeCountForReader s.reservations readerId < 5 →
      quickFormClean s bookId readerId = true) ∧
    (1 ≤ activeCountForReader s.reservations readerId →
      (quick_reserve s bookId readerId now).1 =
        .jsonError "Ce lecteur a déjà une réservation en cours.") ∧
    (activeCountForReader s.reservations readerId = 0 →
      (quick_reserve s bookId readerId now).1 = .success s.nextId) := by
  refine ⟨?_, ?_, ?_⟩
  · intro h5
    simp [quickFormClean, hav, h5]
  · intro h1
    have hne : (get_active_reservations s.reservations readerId).isEmpty
        = false := by
      cases hemp : get_active_reservations s.reservations readerId with
      | nil =>
        exfalso
        have h0 : activeCountForReader s.reservations readerId = 0 := by
          show (get_active_reservations s.reservations readerId).length = 0
          rw [hemp]
          rfl
        omega
      | cons x xs => rfl
    simp [quick_reserve, hb, hr, hav, hne]
  · intro h0
    have hemp : (get_active_reservations s.reservations readerId).isEmpty
        = true := by
      have : (get_active_reservations s.reservations readerId).length = 0 := h0
      simp [List.length_eq_zero] at this
      simp [this]
    have hcur : get_current_reservation s.reservations bookId = none := by
      have hany : s.reservations.any (matchesBookActive bookId) = false := by
        have := hav
        simp [is_available] at this
        simpa [List.any_eq_true] using this
      exact List.find?_eq_none.mpr (by simpa [List.any_eq_false] using hany)
    simp [quick_reserve, hb, hr, hav, hemp, createReservation, hcur]

/-- Witness for C7 (amended): reader 10 has one active reservation in
`exState1`; the form check passes while the view rejects, and reader 20
with no active reservation succeeds. -/
theorem claim_C7_witness :
    quickFormClean exState1 2 10 = true ∧
    (quick_reserve exState1 2 10 7).1 =
      .jsonError "Ce lecteur a déjà une réservation en cours." ∧
    (quick_reserve exState1 2 20 7).1 = .success 101 :=
  ⟨(claim_C7_quick_reserve_limits exState1 2 10 7 exBook2 exReader1
      rfl rfl rfl).1 (by decide),
   (claim_C7_quick_reserve_limits exState1 2 10 7 exBook2 exReader1
      rfl rfl rfl).2.1 (by decide),
   (claim_C7_quick_reserve_limits exState1 2 20 7 exBook2 exReader2
      rfl rfl rfl).2.2 rfl⟩

theorem constraints_sound (rs : List Reservation) (b : Nat)
    (h : declaredConstraintsHold rs = true) : activeCountForBook rs b ≤ 1 := by
  induction rs with
  | nil => simp [activeCountForBook]
  | cons r rest ih =>
    rw [declaredConstraintsHold, Bool.and_eq_true] at h
    obtain ⟨h1, h2⟩ := h
    rw [activeCountForBook_countP, List.countP_cons]
    cases hm : matchesBookActive b r with
    | false =>
      have hrest := ih h2
      rw [activeCountForBook_countP] at hrest
      simp [hm]
      omega
    | true =>
      obtain ⟨hmb, hma⟩ : (r.bookId == b) = true ∧ r.is_active = true := by
        simpa [matchesBookActive, Bool.and_eq_true] using hm
      have hb : r.bookId = b := by simpa using hmb
      have h1' : (r.is_active && rest.any
          (fun x => x.is_active && x.bookId == r.bookId)) = false := by
        cases hh : (r.is_active && rest.any
            (fun x => x.is_active && x.bookId == r.bookId)) with
        | false => rfl
        | true =>
          rw [hh] at h1
          exact absurd h1 (by decide)
      have hany : rest.any (fun x => x.is_active && x.bookId == r.bookId)
          = false := by
        cases hca : rest.any (fun x => x.is_active && x.bookId == r.bookId) with
        | false => rfl
        | true =>
          rw [hma, hca] at h1'
          exact absurd h1' (by simp)
      have hzero : rest.countP (matchesBookActive b) = 0 := by
        apply List.countP_eq_zero.mpr
        intro x hx
        have hxf : (x.is_active && x.bookId == r.bookId) = false := by
          have := List.any_eq_false.mp hany
          simpa using this x hx
        subst hb
        simp [matchesBookActive]
        intro hxb
        rcases Bool.and_eq_false_iff.mp hxf with hxa | hxb2
        · simp [hxa]
        · exact absurd (by simpa using hxb) (by simpa using hxb2)
      simp [hm, hzero]

/-- C8 as stated is false: the two active rows of `exTwoReaderRows` belong
to the same reader on different books; they satisfy every declared storage
constraint of the `Reservation` table, so a second active reservation per
reader is not rejected at the storage level. -/
theorem claim_C8_counterexample :
    declaredConstraintsHold exTwoReaderRows = true ∧
    activeCountForReader exTwoReaderRows 10 = 2 :=
  ⟨rfl, rfl⟩

/-- C8 (amended): the storage layer hard-enforces only I1 — every row set
satisfying the declared constraints has at most one active reservation per
book — while I2 is not storage-enforced: a row set with two active
reservations for one reader satisfies all declared constraints. -/
theorem claim_C8_storage_enforces_book_only :
    (∀ rs b, declaredConstraintsHold rs = true →
      activeCountForBook rs b ≤ 1) ∧
    declaredConstraintsHold exTwoReaderRows = true ∧
    activeCountForReader exTwoReaderRows 10 = 2 :=
  ⟨fun rs b h => constraints_sound rs b h, rfl, rfl⟩

/-- Witness for C8 (amended): the soundness direction applied to the
reservations of `exState3`. -/
theorem claim_C8_witness : activeCountForBook exState3.reservations 1 ≤ 1 :=
  claim_C8_storage_enforces_book_only.1 exState3.reservations 1 (by decide)

end Library
